import Mathlib

/-!
Verification of the Aerographer crawl-orchestration and result-query engine.

This file gives a shallow embedding, in Lean 4, of the parts of the
Aerographer source that the specification's claims talk about:

* the query-operator functions and path resolution of
  `aerographer/survey/__init__.py` (`_eq`, `_ne`, `_gt`, `_lt`, `_contains`,
  `_not_contains`, `_startswith`, `_endswith`, `_get_obj_attr`,
  `SurveySearch.where`, `SurveySearch.where_not`),
* the freezable result store (`Freezable`, `Survey`, `SurveyService`,
  `SurveyResourceType`, `Survey._publish`),
* the scan scheduling of `aerographer/scan/parallel.py` (`async_scan`,
  `async_paginate`) and `aerographer/crawler/generic.py`
  (`GenericCrawler.scan`, `GenericCrawler.evaluate`, `GenericCrawler.__eq__`),
* the dependency-closure computation of `aerographer/crawler/__init__.py`
  (`get_crawler_includes`, `deploy_crawlers`).

Python dynamic values are modelled by the inductive type `PyVal`; Python
exceptions are modelled by the `Err` type together with `Except Err`
results, so that code that raises is embedded as code returning
`Except.error`.
-/

set_option autoImplicit false

namespace Aerographer

/-- Python exceptions raised or caught by the embedded code.  The constructors
named after classes of `aerographer/exceptions.py` carry the same
distinctions the Python classes do; `clientError` models
`botocore.exceptions.ClientError` with its error code string.

Note: `aerographer/exceptions.py` defines `ActiveCrawlerScanExceptionError`,
`TimeOutCrawlerScanExceptionError`, `PaginatorNotFoundExecptionError` and
`FailedCrawlerScanExceptionError`, while `aerographer/scan/parallel.py`
imports and handles the distinct names `ActiveCrawlerScanError`,
`TimeOutCrawlerScanError`, `PaginatorNotFoundError` and
`FailedCrawlerScanError`.  Both families are modelled as distinct
constructors; an `except A` clause never catches an exception of class `B`
for distinct classes `A`, `B`. -/
inductive Err where
  | typeError
  | valueError
  | indexError
  | attributeError
  | surveySearchQueryError
  | surveyAttributeError
  | frozenInstanceError (field : String)
  | evaluationMethodNotFoundError
  | evaluationMethodResultOutputError
  | activeCrawlerScanExceptionError
  | activeCrawlerScanError
  | timeOutCrawlerScanError
  | paginatorNotFoundError
  | failedCrawlerScanError (msg : String)
  | clientError (code : String)
  deriving DecidableEq, Repr

/-- A Python value, as held in crawler metadata and handed to the query
operators: `None`, `bool`, `int`, `str`, `list`/`tuple`, or an object with
named attributes (the dynamically built frozen metadata dataclasses). -/
inductive PyVal where
  | pnone
  | pbool (b : Bool)
  | pint (n : Int)
  | pstr (s : String)
  | plist (xs : List PyVal)
  | pobj (fields : List (String × PyVal))
  deriving Repr

mutual

/-- Python `==` on `PyVal`: numeric types compare across `bool`/`int`,
strings and lists compare structurally, dataclass objects compare
field-by-field, and any other cross-type comparison is `False` (Python
`==` does not raise across types). -/
def pyEq : PyVal → PyVal → Bool
  | .pnone, .pnone => true
  | .pbool a, .pbool b => a == b
  | .pbool a, .pint n => (if a then (1 : Int) else 0) == n
  | .pint n, .pbool b => n == (if b then (1 : Int) else 0)
  | .pint a, .pint b => a == b
  | .pstr a, .pstr b => a == b
  | .plist a, .plist b => pyEqList a b
  | .pobj a, .pobj b => pyEqFields a b
  | _, _ => false

/-- Elementwise Python `==` of two lists. -/
def pyEqList : List PyVal → List PyVal → Bool
  | [], [] => true
  | x :: xs, y :: ys => pyEq x y && pyEqList xs ys
  | _, _ => false

/-- Fieldwise Python `==` of two attribute records. -/
def pyEqFields : List (String × PyVal) → List (String × PyVal) → Bool
  | [], [] => true
  | (k₁, v₁) :: xs, (k₂, v₂) :: ys => k₁ == k₂ && pyEq v₁ v₂ && pyEqFields xs ys
  | _, _ => false

end

mutual

/-- Python `>` on `PyVal`.  Numbers (`int`/`bool`) and strings are ordered;
lists are ordered lexicographically; every other pairing (in particular a
number against a string, or anything against `None` or a dataclass object)
raises `TypeError`. -/
def pyGt : PyVal → PyVal → Except Err Bool
  | .pint a, .pint b => .ok (a > b)
  | .pint a, .pbool b => .ok (a > (if b then 1 else 0))
  | .pbool a, .pint b => .ok ((if a then (1 : Int) else 0) > b)
  | .pbool a, .pbool b => .ok ((if a then (1 : Int) else 0) > (if b then 1 else 0))
  | .pstr a, .pstr b => .ok (decide (b < a))
  | .plist a, .plist b => pyGtList a b
  | _, _ => .error .typeError

/-- Python list `>`: skip equal prefixes, compare the first differing pair,
fall back to length comparison. -/
def pyGtList : List PyVal → List PyVal → Except Err Bool
  | [], _ => .ok false
  | _ :: _, [] => .ok true
  | x :: xs, y :: ys => if pyEq x y then pyGtList xs ys else pyGt x y

end

mutual

/-- Python `<` on `PyVal`, with the same domain as `pyGt`. -/
def pyLt : PyVal → PyVal → Except Err Bool
  | .pint a, .pint b => .ok (a < b)
  | .pint a, .pbool b => .ok (a < (if b then 1 else 0))
  | .pbool a, .pint b => .ok ((if a then (1 : Int) else 0) < b)
  | .pbool a, .pbool b => .ok ((if a then (1 : Int) else 0) < (if b then 1 else 0))
  | .pstr a, .pstr b => .ok (decide (a < b))
  | .plist a, .plist b => pyLtList a b
  | _, _ => .error .typeError

/-- Python list `<`. -/
def pyLtList : List PyVal → List PyVal → Except Err Bool
  | [], [] => .ok false
  | [], _ :: _ => .ok true
  | _ :: _, [] => .ok false
  | x :: xs, y :: ys => if pyEq x y then pyLtList xs ys else pyLt x y

end

/-- Python `item in container`: substring test for strings (raising
`TypeError` for a non-string item), membership by `==` for lists, and
`TypeError` for non-container values (`int`, `bool`, `None`, dataclass
objects do not support `in`). -/
def pyContains (container item : PyVal) : Except Err Bool :=
  match container, item with
  | .pstr s, .pstr m => .ok (decide (m.toList <:+: s.toList))
  | .pstr _, _ => .error .typeError
  | .plist xs, m => .ok (xs.any fun x => pyEq x m)
  | _, _ => .error .typeError

/-- Python `val.startswith(m)`: defined for strings; a non-string receiver
has no `startswith` attribute (`AttributeError`), a non-string argument
raises `TypeError`. -/
def pyStartswith (val m : PyVal) : Except Err Bool :=
  match val, m with
  | .pstr s, .pstr p => .ok (p.isPrefixOf s)
  | .pstr _, _ => .error .typeError
  | _, _ => .error .attributeError

/-- Python `val.endswith(m)`, analogous to `pyStartswith`. -/
def pyEndswith (val m : PyVal) : Except Err Bool :=
  match val, m with
  | .pstr s, .pstr p => .ok (decide (p.toList <:+ s.toList))
  | .pstr _, _ => .error .typeError
  | _, _ => .error .attributeError

/-- Python `any(f(x) for x in l)`: evaluates items left to right, stops at
the first `True`, and propagates the first exception encountered. -/
def pyAny {α : Type} (f : α → Except Err Bool) : List α → Except Err Bool
  | [] => .ok false
  | x :: xs =>
    match f x with
    | .error e => .error e
    | .ok true => .ok true
    | .ok false => pyAny f xs

/-- `_eq` of `survey/__init__.py`: `val in matches`. -/
def opEq (val : PyVal) (cands : List PyVal) : Except Err Bool :=
  .ok (cands.any fun m => pyEq val m)

/-- `_ne` of `survey/__init__.py`: `val not in matches` — true exactly when
NO candidate equals `val`. -/
def opNe (val : PyVal) (cands : List PyVal) : Except Err Bool :=
  .ok (!(cands.any fun m => pyEq val m))

/-- `_gt` of `survey/__init__.py`: `any(val > match for match in matches)`
inside `try: ... except ValueError: return False`.  Only `ValueError` is
caught; the `TypeError` Python actually raises for an unorderable pair
propagates. -/
def opGt (val : PyVal) (cands : List PyVal) : Except Err Bool :=
  match pyAny (fun m => pyGt val m) cands with
  | .error .valueError => .ok false
  | r => r

/-- `_lt` of `survey/__init__.py`, with the same `except ValueError`
guard as `_gt`. -/
def opLt (val : PyVal) (cands : List PyVal) : Except Err Bool :=
  match pyAny (fun m => pyLt val m) cands with
  | .error .valueError => .ok false
  | r => r

/-- `_contains` of `survey/__init__.py`:
`any(match in val for match in matches)`, with no exception handler. -/
def opContains (val : PyVal) (cands : List PyVal) : Except Err Bool :=
  pyAny (fun m => pyContains val m) cands

/-- `_not_contains` of `survey/__init__.py`:
`any(match not in val for match in matches)` — note the existential over
negated membership, with no exception handler. -/
def opNotContains (val : PyVal) (cands : List PyVal) : Except Err Bool :=
  pyAny (fun m => (pyContains val m).map (fun b => !b)) cands

/-- `_startswith` of `survey/__init__.py`:
`any(val.startswith(match) for match in matches)`, no handler. -/
def opStartswith (val : PyVal) (cands : List PyVal) : Except Err Bool :=
  pyAny (fun m => pyStartswith val m) cands

/-- `_endswith` of `survey/__init__.py`:
`any(val.endswith(match) for match in matches)`, no handler. -/
def opEndswith (val : PyVal) (cands : List PyVal) : Except Err Bool :=
  pyAny (fun m => pyEndswith val m) cands

/-- `str.isdigit` for the path keys of `_get_obj_attr`: nonempty and all
characters decimal digits. -/
def isDigitStr (s : String) : Bool :=
  !s.toList.isEmpty && s.toList.all Char.isDigit

/-- Python `getattr(o, key)` on a data value: attribute lookup on a
dataclass object; any other value has no data attributes
(`AttributeError`). -/
def pyGetattr (o : PyVal) (key : String) : Except Err PyVal :=
  match o with
  | .pobj fields =>
    match fields.lookup key with
    | some v => .ok v
    | none => .error .attributeError
  | _ => .error .attributeError

/-- Python `o[n]` on a list, `IndexError` when out of range (path indices
are decimal digits, so never negative). -/
def pyIndex (xs : List PyVal) (n : Nat) : Except Err PyVal :=
  match xs.get? n with
  | some v => .ok v
  | none => .error .indexError

mutual

/-- The body of `_get_obj_attr` of `survey/__init__.py`, before its
`except` clause.  The path is the dotted search string split on `.`
(the source peels one segment at a time with `path.split('.', 1)`):
a digit segment indexes into a list, `*` fans out over a list and
flattens, any other segment is `getattr`. -/
def getObjAttrRaw : PyVal → List String → Except Err (List PyVal)
  | _, [] => .error .attributeError
  | o, [key] =>
    match o with
    | .plist xs =>
      if isDigitStr key then
        match pyIndex xs key.toNat! with
        | .ok v => .ok [v]
        | .error e => .error e
      else if key == "*" then .ok xs
      else
        match pyGetattr o key with
        | .ok v => .ok [v]
        | .error e => .error e
    | _ =>
      match pyGetattr o key with
      | .ok v => .ok [v]
      | .error e => .error e
  | o, key :: rest =>
    match o with
    | .plist xs =>
      if isDigitStr key then
        match pyIndex xs key.toNat! with
        | .ok v => getObjAttrRaw v rest
        | .error e => .error e
      else if key == "*" then getObjAttrStar xs rest
      else
        match pyGetattr o key with
        | .ok v => getObjAttrRaw v rest
        | .error e => .error e
    | _ =>
      match pyGetattr o key with
      | .ok v => getObjAttrRaw v rest
      | .error e => .error e

/-- The `*` branch of `_get_obj_attr`:
`_flatten([_get_obj_attr(i, rest) for i in o])` — resolve the remaining
path under every element and concatenate, propagating the first error. -/
def getObjAttrStar : List PyVal → List String → Except Err (List PyVal)
  | [], _ => .ok []
  | x :: xs, rest =>
    match getObjAttrRaw x rest with
    | .error e => .error e
    | .ok r =>
      match getObjAttrStar xs rest with
      | .error e => .error e
      | .ok rs => .ok (r ++ rs)

end

/-- `_get_obj_attr` of `survey/__init__.py`: the body above wrapped in
`except (KeyError, IndexError, TypeError, AttributeError): raise
SurveySearchQueryError` — every resolution failure surfaces as the
distinct search-query error. -/
def getObjAttr (o : PyVal) (path : List String) : Except Err (List PyVal) :=
  match getObjAttrRaw o path with
  | .ok v => .ok v
  | .error _ => .error .surveySearchQueryError

/-- The keys of `SurveySearch._checks`. -/
def conditionNames : List String :=
  ["eq", "ne", "gt", "lt", "contains", "not_contains", "startswith", "endswith"]

/-- `self._checks[condition](o, values)`: dispatch to the operator
function registered under `condition`. -/
def applyCheck (condition : String) (o : PyVal) (values : List PyVal) : Except Err Bool :=
  if condition == "eq" then opEq o values
  else if condition == "ne" then opNe o values
  else if condition == "gt" then opGt o values
  else if condition == "lt" then opLt o values
  else if condition == "contains" then opContains o values
  else if condition == "not_contains" then opNotContains o values
  else if condition == "startswith" then opStartswith o values
  else if condition == "endswith" then opEndswith o values
  else .error .surveySearchQueryError

/-- The per-instance test of `SurveySearch.where`:
`any(self._checks[condition](o, values) for o in _get_obj_attr(i, attribute))`. -/
def wherePred (attrPath : List String) (condition : String) (values : List PyVal)
    (i : PyVal) : Except Err Bool :=
  match getObjAttr i attrPath with
  | .error e => .error e
  | .ok vals => pyAny (fun o => applyCheck condition o values) vals

/-- A generator filter with Python exception propagation: keep the
elements whose test returns `True`, stop at the first raised exception. -/
def filterE {α : Type} (p : α → Except Err Bool) : List α → Except Err (List α)
  | [] => .ok []
  | x :: xs =>
    match p x with
    | .error e => .error e
    | .ok true =>
      match filterE p xs with
      | .error e => .error e
      | .ok rest => .ok (x :: rest)
    | .ok false => filterE p xs

/-- `SurveySearch.where` of `survey/__init__.py`, with the cursor fully
materialised: reject unknown conditions with the search-query error, keep
the instances with at least one resolved value satisfying the operator. -/
def whereSearch (insts : List PyVal) (attrPath : List String) (condition : String)
    (values : List PyVal) : Except Err (List PyVal) :=
  if conditionNames.contains condition then
    filterE (wherePred attrPath condition values) insts
  else .error .surveySearchQueryError

/-- `SurveySearch.where_not` of `survey/__init__.py`: keep the instances
for which `not any(...)` holds. -/
def whereNotSearch (insts : List PyVal) (attrPath : List String) (condition : String)
    (values : List PyVal) : Except Err (List PyVal) :=
  if conditionNames.contains condition then
    filterE (fun i => (wherePred attrPath condition values i).map (fun b => !b)) insts
  else .error .surveySearchQueryError

/-! ### Dependency closure (`crawler/__init__.py`)

Crawler classes are identified by natural numbers.  A registry entry
`(c, deps)` records one registered crawler module `c` together with its
`INCLUDE` list `deps` (the paths `get_crawlers` resolves).  `init c` tells
whether crawler `c` is in the `initialized` state (before any scan every
crawler is). -/

/-- The set of crawler classes the module tree can resolve: `get_crawlers`
only ever returns registered crawlers. -/
def universeIds (reg : List (Nat × List Nat)) : Finset Nat :=
  (reg.map Prod.fst).toFinset

/-- `sum([crawler.INCLUDE for crawler in crawlers], [])` as a set: the
union of the `INCLUDE` lists of the given crawlers. -/
def includesOf (reg : List (Nat × List Nat)) (s : Finset Nat) : Finset Nat :=
  (reg.filter fun e => decide (e.1 ∈ s)).foldr (fun e acc => e.2.toFinset ∪ acc) ∅

/-- `get_crawlers(services=includes, skip=provided, quiet_skip=True)`:
resolve the requested include paths to registered crawler classes,
dropping any whose path is in the skip list. -/
def getCrawlersReg (reg : List (Nat × List Nat)) (includes skip : Finset Nat) : Finset Nat :=
  (universeIds reg).filter fun i => i ∈ includes ∧ i ∉ skip

/-- The `include_crawlers` list comprehension of `get_crawler_includes`:
`[crawler for crawler in get_crawlers(includes, provided, True)
  if crawlers and crawler.state == 'initialized']`. -/
def includeCandidates (reg : List (Nat × List Nat)) (init : Nat → Bool)
    (crawlers : Finset Nat) : Finset Nat :=
  if crawlers.Nonempty then
    (getCrawlersReg reg (includesOf reg crawlers) crawlers).filter fun c => init c = true
  else ∅

theorem mem_includeCandidates {reg : List (Nat × List Nat)} {init : Nat → Bool}
    {crawlers : Finset Nat} {c : Nat} (h : c ∈ includeCandidates reg init crawlers) :
    c ∈ universeIds reg ∧ c ∉ crawlers := by
  unfold includeCandidates at h
  split at h
  · rw [Finset.mem_filter] at h
    have h' := h.1
    unfold getCrawlersReg at h'
    rw [Finset.mem_filter] at h'
    exact ⟨h'.1, h'.2.2⟩
  · simp at h

/-- `get_crawler_includes` of `crawler/__init__.py`: gather the immediate
dependencies of `crawlers` that are not already provided, and if any were
found, recurse on the enlarged set.  The recursion terminates because the
accumulated set grows strictly inside the finite registry, even when the
`INCLUDE` graph is cyclic: a crawler already in the accumulated set is in
the skip list, hence never re-expanded. -/
def getCrawlerIncludes (reg : List (Nat × List Nat)) (init : Nat → Bool)
    (crawlers : Finset Nat) : Finset Nat :=
  if h : (includeCandidates reg init crawlers).Nonempty then
    includeCandidates reg init crawlers ∪
      getCrawlerIncludes reg init (includeCandidates reg init crawlers ∪ crawlers)
  else ∅
termination_by (universeIds reg \ crawlers).card
decreasing_by
  obtain ⟨x, hx⟩ := h
  have hxu := mem_includeCandidates hx
  have hsub : universeIds reg \ (includeCandidates reg init crawlers ∪ crawlers) ⊆
      universeIds reg \ crawlers := by
    intro y hy
    rw [Finset.mem_sdiff] at hy ⊢
    exact ⟨hy.1, fun hc => hy.2 (Finset.mem_union_right _ hc)⟩
  exact Finset.card_lt_card ((Finset.ssubset_iff_of_subset hsub).mpr
    ⟨x, Finset.mem_sdiff.mpr ⟨hxu.1, hxu.2⟩,
      fun hc => (Finset.mem_sdiff.mp hc).2 (Finset.mem_union_left _ hx)⟩)

/-- The resource-type set `deploy_crawlers` actually scans:
`crawlers + include_crawlers` — the requested set together with its
computed dependency closure. -/
def closureSet (reg : List (Nat × List Nat)) (init : Nat → Bool)
    (requested : Finset Nat) : Finset Nat :=
  requested ∪ getCrawlerIncludes reg init requested

/-! ### Scan scheduling (`scan/parallel.py`, `crawler/generic.py`) -/

/-- `GenericCrawler.state`: `initialized` (no scan performed), `active`
(actively scanning) or `complete` (scan complete). -/
inductive CrawlerState where
  | initialized
  | active
  | complete
  deriving DecidableEq, Repr

/-- One call of `GenericCrawler.scan` as observed by `async_scan`, as a
function of the unit's state at the moment of the call:

* `state == 'active'` → `raise ActiveCrawlerScanExceptionError`;
* `state == 'complete'` → return immediately without rework;
* otherwise the caller wins, runs all contexts and completes.  (The body
  of a successful scan is abstracted; its failure modes are not needed for
  the idempotency-wait claim.) -/
def crawlerScanStep (st : CrawlerState) : Except Err Unit :=
  match st with
  | .active => .error .activeCrawlerScanExceptionError
  | .complete => .ok ()
  | .initialized => .ok ()

/-- The retry loop of `async_scan`: `for _ in range(60): try: return await
cls.scan() except ActiveCrawlerScanError: await asyncio.sleep(2) except
PaginatorNotFoundError as err: raise FailedCrawlerScanError(err)`, and
`raise TimeOutCrawlerScanError` after the loop.  `states k` is the unit's
state observed by the `k`-th call; the returned `Nat` counts how many
calls of `cls.scan()` were made.  Exceptions other than the two named
classes propagate out of the loop. -/
def asyncScanAux (states : Nat → CrawlerState) (k : Nat) : Nat → Except Err Unit × Nat
  | 0 => (.error .timeOutCrawlerScanError, k)
  | fuel + 1 =>
    match crawlerScanStep (states k) with
    | .ok _ => (.ok (), k + 1)
    | .error .activeCrawlerScanError => asyncScanAux states (k + 1) fuel
    | .error .paginatorNotFoundError =>
      (.error (.failedCrawlerScanError "PaginatorNotFoundError"), k + 1)
    | .error e => (.error e, k + 1)

/-- `async_scan` of `scan/parallel.py`: 60 loop iterations with a
2-second sleep between retries (≈ 120 seconds). -/
def asyncScan (states : Nat → CrawlerState) : Except Err Unit × Nat :=
  asyncScanAux states 0 60

/-- The remote API's response to one whole pagination attempt: either the
fully resolved pages or a `botocore` `ClientError` with an error code. -/
inductive RemoteOutcome (σ : Type) where
  | success (pages : σ)
  | clientError (code : String)

/-- The `for attempt in range(4)` loop of `async_paginate` of
`scan/parallel.py`: `att k` is what the remote API does on attempt `k`
(all the attempt's pages are gathered inside one `try`).  A `ClientError`
whose code is `Throttling` backs off and retries the whole attempt; any
other `ClientError` is re-raised; exhausting the loop raises
`FailedCrawlerScanError` naming the context and operation.  The returned
`Nat` counts the attempts performed. -/
def asyncPaginateAux {σ : Type} (att : Nat → RemoteOutcome σ) (ctx fn : String)
    (attempt : Nat) : Nat → Except Err σ × Nat
  | 0 => (.error (.failedCrawlerScanError (ctx ++ "." ++ fn ++ ": Max retries exceeded.")),
          attempt)
  | fuel + 1 =>
    match att attempt with
    | .success p => (.ok p, attempt + 1)
    | .clientError code =>
      if code == "Throttling" then asyncPaginateAux att ctx fn (attempt + 1) fuel
      else (.error (.clientError code), attempt + 1)

/-- `async_paginate`: at most 4 attempts, starting at attempt 0. -/
def asyncPaginate {σ : Type} (att : Nat → RemoteOutcome σ) (ctx fn : String) :
    Except Err σ × Nat :=
  asyncPaginateAux att ctx fn 0 4

/-! ### Evaluation memoization (`GenericCrawler.evaluate`) -/

/-- `aerographer.evaluations.Result`: the `(message, status)` dataclass an
evaluation function must return. -/
structure EvalResult where
  message : String
  status : Bool
  deriving DecidableEq, Repr

/-- What a check function call produces: a proper `Result`, or a value of
some other type (rejected by the `isinstance(eval_result, Result)` test). -/
inductive EvalReturn where
  | result (r : EvalResult)
  | wrongShape

/-- The parts of a `GenericCrawler` instance that `evaluate` touches:
`self.results` (the ordered list of `(name, Result)` pairs recorded so
far) and the check functions attached to the class, keyed by their
`__name__` (both local and external evaluation functions are attached
under `func.__name__`, so the recorded key equals the lookup key). -/
structure CrawlerEvalState where
  results : List (String × EvalResult)
  evalFuncs : List (String × (Unit → EvalReturn))

/-- `GenericCrawler.evaluate` of `crawler/generic.py`.  Returns the
updated instance, the evaluation's status, and how many times the
underlying check function was executed during this call (0 or 1):

* if a result under this name is already recorded, return its status
  without executing anything;
* otherwise look the function up (`EvaluationMethodNotFoundError` when
  absent), run it, reject a non-`Result` value
  (`EvaluationMethodResultOutputError`), append `(name, result)` to
  `self.results` and return the status. -/
def evaluate (inst : CrawlerEvalState) (evaluation : String) :
    Except Err (CrawlerEvalState × Bool × Nat) :=
  match inst.results.find? (fun r => r.1 == evaluation) with
  | some r => .ok (inst, r.2.status, 0)
  | none =>
    match inst.evalFuncs.lookup evaluation with
    | none => .error .evaluationMethodNotFoundError
    | some f =>
      match f () with
      | .wrongShape => .error .evaluationMethodResultOutputError
      | .result res =>
        .ok ({ inst with results := inst.results ++ [(evaluation, res)] }, res.status, 1)

/-! ### The freezable result store (`survey/__init__.py`) -/

/-- The data of one scanned resource instance that the store and the
membership test look at: its derived `id`, the account and region of the
context it was fetched under, and its metadata payload. -/
structure CrawlerObj where
  id : String
  accountId : String
  region : String
  data : PyVal

/-- Membership of a character in Python's `string.punctuation`
(the ASCII ranges 0x21–0x2f, 0x3a–0x40, 0x5b–0x60 and 0x7b–0x7e). -/
def isPunctChar (c : Char) : Bool :=
  (0x21 ≤ c.toNat && c.toNat ≤ 0x2f) || (0x3a ≤ c.toNat && c.toNat ≤ 0x40) ||
    (0x5b ≤ c.toNat && c.toNat ≤ 0x60) || (0x7b ≤ c.toNat && c.toNat ≤ 0x7e)

/-- `_serialize_resource_id` of `survey/__init__.py`: replace every
punctuation character by an underscore. -/
def serializeResourceId (s : String) : String :=
  s.map fun c => if isPunctChar c then '_' else c

/-- Replace (or append) the binding of `k` in an attribute store, as
`object.__setattr__` does. -/
def setAssoc {α : Type} (k : String) (v : α) : List (String × α) → List (String × α)
  | [] => [(k, v)]
  | (k₀, v₀) :: rest => if k₀ == k then (k, v) :: rest else (k₀, v₀) :: setAssoc k v rest

/-- Remove the binding of `k` from an attribute store, as
`object.__delattr__` does; `AttributeError` when the attribute is
absent. -/
def delAssoc {α : Type} (k : String) : List (String × α) → Except Err (List (String × α))
  | [] => .error .attributeError
  | (k₀, v₀) :: rest =>
    if k₀ == k then .ok rest
    else
      match delAssoc k rest with
      | .ok rest' => .ok ((k₀, v₀) :: rest')
      | .error e => .error e

/-- `SurveyResourceType`: the `Freezable` bucket of one resource type.
`resourceIds` is the `resources` id set; `attrs` holds the resource
instances dynamically assigned under their serialized ids by
`_add_resource`. -/
structure SurveyResourceType where
  frozen : Bool
  rid : String
  resourceIds : List String
  attrs : List (String × CrawlerObj)

/-- `SurveyService`: the `Freezable` bucket of one service; `attrs` holds
the `SurveyResourceType` buckets assigned by `_add_resource_type`. -/
structure SurveyService where
  frozen : Bool
  sid : String
  resourceTypeIds : List String
  attrs : List (String × SurveyResourceType)

/-- `Survey`: the root of the result store; `attrs` holds the
`SurveyService` buckets assigned by `_add_service`. -/
structure Survey where
  frozen : Bool
  serviceIds : List String
  attrs : List (String × SurveyService)

/-- `Freezable.__setattr__` at the resource-type level: raise
`FrozenInstanceError` when `_frozen`, otherwise assign. -/
def rtSetattr (s : SurveyResourceType) (k : String) (v : CrawlerObj) :
    Except Err SurveyResourceType :=
  if s.frozen then .error (.frozenInstanceError k)
  else .ok { s with attrs := setAssoc k v s.attrs }

/-- `Freezable.__delattr__` at the resource-type level. -/
def rtDelattr (s : SurveyResourceType) (k : String) : Except Err SurveyResourceType :=
  if s.frozen then .error (.frozenInstanceError k)
  else
    match delAssoc k s.attrs with
    | .ok attrs' => .ok { s with attrs := attrs' }
    | .error e => .error e

/-- `SurveyResourceType.get_resource`: `getattr(self,
_serialize_resource_id(resource))`, with `AttributeError` surfaced as the
distinct `SurveyAttributeError`. -/
def rtGetResource (s : SurveyResourceType) (resource : String) : Except Err CrawlerObj :=
  match s.attrs.lookup (serializeResourceId resource) with
  | some v => .ok v
  | none => .error .surveyAttributeError

/-- `Freezable.__setattr__` at the service level. -/
def svcSetattr (s : SurveyService) (k : String) (v : SurveyResourceType) :
    Except Err SurveyService :=
  if s.frozen then .error (.frozenInstanceError k)
  else .ok { s with attrs := setAssoc k v s.attrs }

/-- `Freezable.__delattr__` at the service level. -/
def svcDelattr (s : SurveyService) (k : String) : Except Err SurveyService :=
  if s.frozen then .error (.frozenInstanceError k)
  else
    match delAssoc k s.attrs with
    | .ok attrs' => .ok { s with attrs := attrs' }
    | .error e => .error e

/-- `SurveyService.get_resource_type`: `getattr(self, resource_type)` with
`AttributeError` surfaced as `SurveyAttributeError`. -/
def svcGetResourceType (s : SurveyService) (rt : String) : Except Err SurveyResourceType :=
  match s.attrs.lookup rt with
  | some v => .ok v
  | none => .error .surveyAttributeError

/-- `Freezable.__setattr__` at the survey root. -/
def surveySetattr (s : Survey) (k : String) (v : SurveyService) : Except Err Survey :=
  if s.frozen then .error (.frozenInstanceError k)
  else .ok { s with attrs := setAssoc k v s.attrs }

/-- `Freezable.__delattr__` at the survey root. -/
def surveyDelattr (s : Survey) (k : String) : Except Err Survey :=
  if s.frozen then .error (.frozenInstanceError k)
  else
    match delAssoc k s.attrs with
    | .ok attrs' => .ok { s with attrs := attrs' }
    | .error e => .error e

/-- `Survey.get_service`: `getattr(self, service)` with `AttributeError`
surfaced as `SurveyAttributeError`. -/
def surveyGetService (s : Survey) (svc : String) : Except Err SurveyService :=
  match s.attrs.lookup svc with
  | some v => .ok v
  | none => .error .surveyAttributeError

/-- A full read path through the store:
`SURVEY.get_service(svc).get_resource_type(rt).get_resource(res)`. -/
def surveyReadResource (s : Survey) (svc rt res : String) : Except Err CrawlerObj :=
  match surveyGetService s svc with
  | .error e => .error e
  | .ok service =>
    match svcGetResourceType service rt with
    | .error e => .error e
    | .ok bucket => rtGetResource bucket res

/-- `Survey._publish` of `survey/__init__.py`: `_freeze` every resource
type of every service, then every service, then the survey itself.
(`get_services`/`get_resource_types` enumerate exactly the buckets added
by `_add_service`/`_add_resource_type`, i.e. the attribute stores.)
`rtFreeze` is `Freezable._freeze` on a resource-type bucket. -/
def rtFreeze (b : SurveyResourceType) : SurveyResourceType :=
  { b with frozen := true }

/-- `Freezable._freeze` applied to a service bucket and, before it, to each
of its resource-type buckets. -/
def svcFreeze (sv : SurveyService) : SurveyService :=
  { sv with frozen := true, attrs := sv.attrs.map fun q => (q.1, rtFreeze q.2) }

def publishSurvey (s : Survey) : Survey :=
  { s with frozen := true, attrs := s.attrs.map fun p => (p.1, svcFreeze p.2) }

/-! ### Context applicability (`GenericCrawler.scan`) -/

/-- `aerographer.scan.context.CONTEXT` as far as scheduling is concerned:
one (account, region, service) triple.  `scan.CONTEXTS` enumerates them
account by account, each account's first region first. -/
structure ScanCtx where
  name : String
  accountId : String
  region : String
  service : String
  deriving DecidableEq, Repr

/-- The contexts one fetch unit is scanned against, from
`GenericCrawler.scan`:
`contexts = tuple([scan.CONTEXTS[0]]) if cls.globalService else scan.CONTEXTS`
followed by the gather over
`(cls._scan_context(context) for context in contexts if context.service ==
cls.serviceType)`.  (`List.take 1` is `[CONTEXTS[0]]` for a nonempty
context list; on an empty list the source would raise `IndexError`.) -/
def scanContextsFor (globalService : Bool) (serviceType : String)
    (contexts : List ScanCtx) : List ScanCtx :=
  (if globalService then contexts.take 1 else contexts).filter
    fun c => c.service == serviceType

/-! ### Instance equality and membership (`GenericCrawler.__eq__`,
`SurveyResourceType.__contains__`) -/

/-- An object handed to `==` or `in`: either a crawler instance, or a
non-crawler object with Python's default (identity) `__eq__`, represented
by its string form `str(o)`. -/
inductive AnyObj where
  | crawler (c : CrawlerObj)
  | plain (strForm : String)

/-- `GenericCrawler.__eq__`: a crawler instance compares equal to another
crawler exactly when the ids match, and to any other object exactly when
`str(other) == self.id`. -/
def crawlerEq (self : CrawlerObj) (o : AnyObj) : Bool :=
  match o with
  | .crawler other => other.id == self.id
  | .plain s => s == self.id

/-- Python's dispatch for `__o == resource` with `resource` a crawler
instance: a crawler left operand uses `GenericCrawler.__eq__` directly; a
non-crawler left operand's default `__eq__` returns `NotImplemented`, so
the comparison is reflected into `resource.__eq__(__o)`. -/
def pyEqObj (o : AnyObj) (resource : CrawlerObj) : Bool :=
  match o with
  | .crawler c => crawlerEq c (.crawler resource)
  | .plain s => crawlerEq resource (.plain s)

/-- `SurveyResourceType.__contains__`:
`any(__o == resource for resource in self.get_resources())`, where
`resources` enumerates the instances stored in the bucket. -/
def rtContains (resources : List CrawlerObj) (o : AnyObj) : Bool :=
  resources.any fun r => pyEqObj o r

/-- `str(o)`: `GenericCrawler.__str__` returns `self.id`; for a plain
object the representative string form is carried directly. -/
def strOf : AnyObj → String
  | .crawler c => c.id
  | .plain s => s

/-! ## Helper lemmas -/

theorem pyAny_ok_iff {α : Type} (f : α → Except Err Bool) :
    ∀ (l : List α) (b : Bool), pyAny f l = .ok b →
      (b = true ↔ ∃ x ∈ l, f x = .ok true) := by
  intro l
  induction l with
  | nil =>
    intro b h
    simp only [pyAny] at h
    cases h
    simp
  | cons x xs ih =>
    intro b h
    cases hfx : f x with
    | error e => simp [pyAny, hfx] at h
    | ok bv =>
      cases bv with
      | false =>
        simp only [pyAny, hfx] at h
        have hiff := ih b h
        constructor
        · intro hb
          obtain ⟨y, hy, hfy⟩ := hiff.mp hb
          exact ⟨y, List.mem_cons_of_mem _ hy, hfy⟩
        · rintro ⟨y, hy, hfy⟩
          rcases List.mem_cons.mp hy with rfl | hmem
          · rw [hfx] at hfy
            cases hfy
          · exact hiff.mpr ⟨y, hmem, hfy⟩
      | true =>
        simp only [pyAny, hfx] at h
        cases h
        exact ⟨fun _ => ⟨x, List.mem_cons_self x xs, hfx⟩, fun _ => rfl⟩

theorem pyAny_ok_of_fun {α : Type} (g : α → Bool) (l : List α) :
    pyAny (fun x => (.ok (g x) : Except Err Bool)) l = .ok (l.any g) := by
  induction l with
  | nil => rfl
  | cons x xs ih => cases hgx : g x <;> simp [pyAny, hgx, ih]

theorem filterE_congr {α : Type} {p : α → Except Err Bool} {q : α → Bool} :
    ∀ {l : List α}, (∀ x ∈ l, p x = .ok (q x)) → filterE p l = .ok (l.filter q) := by
  intro l
  induction l with
  | nil => intro _; rfl
  | cons x xs ih =>
    intro h
    have hx := h x (List.mem_cons_self x xs)
    have hxs := ih fun y hy => h y (List.mem_cons_of_mem _ hy)
    cases hqx : q x <;> rw [hqx] at hx <;> simp [filterE, hx, hxs, List.filter_cons, hqx]

theorem filterE_all_false {α : Type} {p : α → Except Err Bool} :
    ∀ {l : List α}, (∀ x ∈ l, p x = .ok false) → filterE p l = .ok [] := by
  intro l h
  have := filterE_congr (q := fun _ => false) (fun x hx => h x hx)
  simpa using this

theorem lookup_map_val {α β : Type} (f : α → β) (k : String) :
    ∀ l : List (String × α),
      (l.map fun p => (p.1, f p.2)).lookup k = (l.lookup k).map f := by
  intro l
  induction l with
  | nil => rfl
  | cons x xs ih =>
    obtain ⟨k₀, v₀⟩ := x
    by_cases hk : k == k₀ <;> simp [List.lookup, hk, ih]

/-! ## Claim theorems -/

/-- C1.  The claim states that every query operator evaluates a
type-incompatible comparison as `False` instead of raising.  The code
violates it: `_gt`/`_lt` guard their comparison with
`except ValueError`, but Python raises `TypeError` for an unorderable
pair, which therefore propagates; `_contains`, `_startswith` and
`_endswith` have no guard at all, so their `TypeError`/`AttributeError`
propagates, and `where`/`where_not` surface the exception instead of
treating the element as a non-match.  This theorem evaluates the embedded
code at the failing inputs: resolved value `0` against candidate list
`['a']`. -/
theorem c1_operators_raise_on_type_mismatch :
    opGt (.pint 0) [.pstr "a"] = .error .typeError ∧
    opLt (.pint 0) [.pstr "a"] = .error .typeError ∧
    opContains (.pint 0) [.pstr "a"] = .error .typeError ∧
    opStartswith (.pint 0) [.pstr "a"] = .error .attributeError ∧
    opEndswith (.pint 0) [.pstr "a"] = .error .attributeError ∧
    whereSearch [.pobj [("x", .pstr "a")]] ["x"] "gt" [.pint 0] = .error .typeError ∧
    whereNotSearch [.pobj [("x", .pstr "a")]] ["x"] "gt" [.pint 0] = .error .typeError := by
  refine ⟨rfl, rfl, rfl, rfl, rfl, ?_, ?_⟩ <;>
    simp [whereSearch, whereNotSearch, conditionNames, filterE, wherePred, getObjAttr,
      getObjAttrRaw, pyGetattr, applyCheck, opGt, pyAny, pyGt, Except.map]

/-- C2.  The claim states that a caller observing the running state polls
with a bounded sleep (60 retries × 2 s) and raises a distinct timeout
error when the window elapses, while a caller observing the done state
returns immediately.  The code violates the polling half:
`GenericCrawler.scan` raises `ActiveCrawlerScanExceptionError`, but
`async_scan`'s loop catches the distinct class `ActiveCrawlerScanError`
(a name `aerographer/exceptions.py` does not even define, so importing
`scan/parallel.py` fails outright), so the active-scan exception
propagates after a single probe: no polling, no
`TimeOutCrawlerScanError`.  A unit in the `complete` state does return
immediately. -/
theorem c2_active_scan_exception_propagates :
    asyncScan (fun _ => .active) = (.error .activeCrawlerScanExceptionError, 1) ∧
    asyncScan (fun _ => .complete) = (.ok (), 1) :=
  ⟨rfl, rfl⟩

/-- C3.  For every pagination run: a successful attempt after `k`
throttled attempts (`k < 4`) ends the run with exactly `k + 1` attempts
and the successful attempt's pages; a non-throttling remote error
propagates immediately without retry; four throttled attempts exhaust the
budget and raise the terminal fetch-failure error naming the context and
operation. -/
theorem c3_retry_only_on_throttling :
    (∀ {σ : Type} (att : Nat → RemoteOutcome σ) (ctx fn : String) (p : σ) (k : Nat),
      k < 4 → (∀ j, j < k → att j = .clientError "Throttling") → att k = .success p →
      asyncPaginate att ctx fn = (.ok p, k + 1)) ∧
    (∀ {σ : Type} (att : Nat → RemoteOutcome σ) (ctx fn code : String) (k : Nat),
      k < 4 → (∀ j, j < k → att j = .clientError "Throttling") →
      att k = .clientError code → code ≠ "Throttling" →
      asyncPaginate att ctx fn = (.error (.clientError code), k + 1)) ∧
    (∀ {σ : Type} (att : Nat → RemoteOutcome σ) (ctx fn : String),
      (∀ j, j < 4 → att j = .clientError "Throttling") →
      asyncPaginate att ctx fn =
        (.error (.failedCrawlerScanError (ctx ++ "." ++ fn ++ ": Max retries exceeded.")), 4)) := by
  refine ⟨?_, ?_, ?_⟩
  · intro σ att ctx fn p k hk hthr hs
    interval_cases k
    · simp [asyncPaginate, asyncPaginateAux, hs]
    · have h0 := hthr 0 (by omega)
      simp [asyncPaginate, asyncPaginateAux, h0, hs]
    · have h0 := hthr 0 (by omega)
      have h1 := hthr 1 (by omega)
      simp [asyncPaginate, asyncPaginateAux, h0, h1, hs]
    · have h0 := hthr 0 (by omega)
      have h1 := hthr 1 (by omega)
      have h2 := hthr 2 (by omega)
      simp [asyncPaginate, asyncPaginateAux, h0, h1, h2, hs]
  · intro σ att ctx fn code k hk hthr he hne
    have hcode : (code == "Throttling") = false := beq_eq_false_iff_ne.mpr hne
    interval_cases k
    · simp [asyncPaginate, asyncPaginateAux, he, hcode]
    · have h0 := hthr 0 (by omega)
      simp [asyncPaginate, asyncPaginateAux, h0, he, hcode]
    · have h0 := hthr 0 (by omega)
      have h1 := hthr 1 (by omega)
      simp [asyncPaginate, asyncPaginateAux, h0, h1, he, hcode]
    · have h0 := hthr 0 (by omega)
      have h1 := hthr 1 (by omega)
      have h2 := hthr 2 (by omega)
      simp [asyncPaginate, asyncPaginateAux, h0, h1, h2, he, hcode]
  · intro σ att ctx fn hthr
    have h0 := hthr 0 (by omega)
    have h1 := hthr 1 (by omega)
    have h2 := hthr 2 (by omega)
    have h3 := hthr 3 (by omega)
    simp [asyncPaginate, asyncPaginateAux, h0, h1, h2, h3]

/-- C3 witness: throttling on attempts 1 and 2 and success on attempt 3
for a single-context fetch gives exactly 3 attempts and the successful
attempt's pages. -/
theorem c3_retry_witness :
    asyncPaginate (fun k => if k < 2 then .clientError "Throttling" else .success 7)
      "ctx" "op" = (.ok 7, 3) :=
  c3_retry_only_on_throttling.1
    (fun k => if k < 2 then .clientError "Throttling" else .success 7) "ctx" "op" 7 2
    (by omega) (fun j hj => by simp [hj]) (by simp)

theorem closure_measure_lt {reg : List (Nat × List Nat)} {init : Nat → Bool}
    {C : Finset Nat} (h : (includeCandidates reg init C).Nonempty) :
    (universeIds reg \ (includeCandidates reg init C ∪ C)).card <
      (universeIds reg \ C).card := by
  obtain ⟨x, hx⟩ := h
  have hxu := mem_includeCandidates hx
  have hsub : universeIds reg \ (includeCandidates reg init C ∪ C) ⊆
      universeIds reg \ C := by
    intro y hy
    rw [Finset.mem_sdiff] at hy ⊢
    exact ⟨hy.1, fun hc => hy.2 (Finset.mem_union_right _ hc)⟩
  exact Finset.card_lt_card ((Finset.ssubset_iff_of_subset hsub).mpr
    ⟨x, Finset.mem_sdiff.mpr ⟨hxu.1, hxu.2⟩,
      fun hc => (Finset.mem_sdiff.mp hc).2 (Finset.mem_union_left _ hx)⟩)

/-- The accumulated set reached by `get_crawler_includes` has no remaining
include candidates: every still-initialized registered dependency of
`C ∪ get_crawler_includes(C)` is already inside it. -/
theorem includeCandidates_closure_empty (reg : List (Nat × List Nat)) (init : Nat → Bool) :
    ∀ C : Finset Nat,
      includeCandidates reg init (C ∪ getCrawlerIncludes reg init C) = ∅ := by
  have main : ∀ (n : Nat) (C : Finset Nat), (universeIds reg \ C).card ≤ n →
      includeCandidates reg init (C ∪ getCrawlerIncludes reg init C) = ∅ := by
    intro n
    induction n with
    | zero =>
      intro C hC
      have hemp : ¬(includeCandidates reg init C).Nonempty := by
        rintro ⟨x, hx⟩
        have hxu := mem_includeCandidates hx
        have hmem : x ∈ universeIds reg \ C := Finset.mem_sdiff.mpr ⟨hxu.1, hxu.2⟩
        have hpos : 0 < (universeIds reg \ C).card := Finset.card_pos.mpr ⟨x, hmem⟩
        omega
      rw [getCrawlerIncludes, dif_neg hemp, Finset.union_empty]
      exact Finset.not_nonempty_iff_eq_empty.mp hemp
    | succ n ih =>
      intro C hC
      by_cases hne : (includeCandidates reg init C).Nonempty
      · rw [getCrawlerIncludes, dif_pos hne]
        have hun : C ∪ (includeCandidates reg init C ∪
            getCrawlerIncludes reg init (includeCandidates reg init C ∪ C)) =
            (includeCandidates reg init C ∪ C) ∪
              getCrawlerIncludes reg init (includeCandidates reg init C ∪ C) := by
          rw [← Finset.union_assoc, Finset.union_comm C (includeCandidates reg init C)]
        rw [hun]
        apply ih
        have hlt := closure_measure_lt hne
        omega
      · rw [getCrawlerIncludes, dif_neg hne, Finset.union_empty]
        exact Finset.not_nonempty_iff_eq_empty.mp hne
  intro C
  exact main _ C le_rfl

/-- C4.  For every registry, state assignment and requested set `R`, the
dependency closure `deploy_crawlers` scans (`R` together with
`get_crawler_includes(R)`) is a superset of `R` and is idempotent:
computing the closure of the closure adds nothing.  Termination on cyclic
`requires`/`INCLUDE` graphs is established by the very definition of
`getCrawlerIncludes`, whose recursion is well founded because a crawler
already in the accumulated set is skipped and never re-expanded. -/
theorem c4_closure_superset_idempotent :
    ∀ (reg : List (Nat × List Nat)) (init : Nat → Bool) (R : Finset Nat),
      R ⊆ closureSet reg init R ∧
      closureSet reg init (closureSet reg init R) = closureSet reg init R := by
  intro reg init R
  constructor
  · exact Finset.subset_union_left
  · have hempty := includeCandidates_closure_empty reg init R
    have hne : ¬(includeCandidates reg init
        (R ∪ getCrawlerIncludes reg init R)).Nonempty := by
      rw [hempty]
      exact Finset.not_nonempty_empty
    have houter : getCrawlerIncludes reg init (R ∪ getCrawlerIncludes reg init R) = ∅ := by
      rw [getCrawlerIncludes, dif_neg hne]
    show closureSet reg init (R ∪ getCrawlerIncludes reg init R) = _
    unfold closureSet
    rw [houter, Finset.union_empty]

/-- C5 counterexample.  The claim reads every operator — including
not-equals — as "true iff at least one candidate matches", and predicts
that `_ne` over candidates `[a, b]` with `a ≠ b` is true for the value
`a` (because candidate `b` differs).  The code's `_ne` is
`val not in matches`: with `val = 0` and candidates `[0, 1]` it returns
`False`, although candidate `1` differs from `0`. -/
theorem c5_ne_counterexample :
    opNe (.pint 0) [.pint 0, .pint 1] = .ok false ∧
    pyEq (.pint 0) (.pint 1) = false :=
  ⟨rfl, rfl⟩

/-- C5 (amended).  Each operator compares one resolved value against the
candidate list with existential semantics — true iff at least one
candidate matches — EXCEPT not-equals: `_ne` is `val not in matches`,
true iff no candidate equals the value.  For the operators whose
elementwise comparison can raise (`gt`, `lt`, `contains`, `not_contains`,
`startswith`, `endswith`) the characterization holds whenever the
evaluation completes without an exception (`.ok b`). -/
theorem c5_operator_candidate_semantics :
    (∀ (val : PyVal) (cands : List PyVal),
      opEq val cands = .ok true ↔ ∃ m ∈ cands, pyEq val m = true) ∧
    (∀ (val : PyVal) (cands : List PyVal),
      opNe val cands = .ok true ↔ ∀ m ∈ cands, pyEq val m = false) ∧
    (∀ (val : PyVal) (cands : List PyVal) (b : Bool),
      pyAny (fun m => pyGt val m) cands = .ok b →
      opGt val cands = .ok b ∧ (b = true ↔ ∃ m ∈ cands, pyGt val m = .ok true)) ∧
    (∀ (val : PyVal) (cands : List PyVal) (b : Bool),
      pyAny (fun m => pyLt val m) cands = .ok b →
      opLt val cands = .ok b ∧ (b = true ↔ ∃ m ∈ cands, pyLt val m = .ok true)) ∧
    (∀ (val : PyVal) (cands : List PyVal) (b : Bool),
      opContains val cands = .ok b →
      (b = true ↔ ∃ m ∈ cands, pyContains val m = .ok true)) ∧
    (∀ (val : PyVal) (cands : List PyVal) (b : Bool),
      opNotContains val cands = .ok b →
      (b = true ↔ ∃ m ∈ cands, pyContains val m = .ok false)) ∧
    (∀ (val : PyVal) (cands : List PyVal) (b : Bool),
      opStartswith val cands = .ok b →
      (b = true ↔ ∃ m ∈ cands, pyStartswith val m = .ok true)) ∧
    (∀ (val : PyVal) (cands : List PyVal) (b : Bool),
      opEndswith val cands = .ok b →
      (b = true ↔ ∃ m ∈ cands, pyEndswith val m = .ok true)) := by
  have hmapnot : ∀ x : Except Err Bool,
      x.map (fun b => !b) = .ok true ↔ x = .ok false := by
    intro x
    cases x with
    | error e => simp [Except.map]
    | ok b => cases b <;> simp [Except.map]
  refine ⟨?_, ?_, ?_, ?_, ?_, ?_, ?_, ?_⟩
  · intro val cands
    simp [opEq, List.any_eq_true]
  · intro val cands
    simp [opNe, List.any_eq_false]
  · intro val cands b h
    exact ⟨by simp [opGt, h], pyAny_ok_iff _ _ _ h⟩
  · intro val cands b h
    exact ⟨by simp [opLt, h], pyAny_ok_iff _ _ _ h⟩
  · intro val cands b h
    exact pyAny_ok_iff _ _ _ h
  · intro val cands b h
    have := pyAny_ok_iff _ _ _ h
    constructor
    · intro hb
      obtain ⟨m, hm, hmap⟩ := this.mp hb
      exact ⟨m, hm, (hmapnot _).mp hmap⟩
    · rintro ⟨m, hm, hc⟩
      exact this.mpr ⟨m, hm, (hmapnot _).mpr hc⟩
  · intro val cands b h
    exact pyAny_ok_iff _ _ _ h
  · intro val cands b h
    exact pyAny_ok_iff _ _ _ h

/-- C5 witness: the amended characterization evaluated at concrete
inputs — `ne` over one differing candidate, and `gt` over a smaller
numeric candidate. -/
theorem c5_witness :
    (opNe (.pstr "a") [.pstr "b"] = .ok true ↔
      ∀ m ∈ [PyVal.pstr "b"], pyEq (.pstr "a") m = false) ∧
    (opGt (.pint 3) [.pint 1] = .ok true ∧
      (true = true ↔ ∃ m ∈ [PyVal.pint 1], pyGt (.pint 3) m = .ok true)) :=
  ⟨c5_operator_candidate_semantics.2.1 (.pstr "a") [.pstr "b"],
    c5_operator_candidate_semantics.2.2.1 (.pint 3) [.pint 1] true rfl⟩

/-- C6.  After `Survey._publish` freezes the store, every attribute write
or delete at every level — survey root, service, resource type — raises
the distinct `FrozenInstanceError`, and a read of an entry populated
before the freeze returns exactly what it returned before. -/
theorem c6_frozen_survey_writes_raise_reads_unchanged :
    ∀ (s : Survey) (k res svc rt : String) (vS : SurveyService)
      (vR : SurveyResourceType) (vC : CrawlerObj),
      surveySetattr (publishSurvey s) k vS = .error (.frozenInstanceError k) ∧
      surveyDelattr (publishSurvey s) k = .error (.frozenInstanceError k) ∧
      (∀ p ∈ (publishSurvey s).attrs,
        svcSetattr p.2 k vR = .error (.frozenInstanceError k) ∧
        svcDelattr p.2 k = .error (.frozenInstanceError k)) ∧
      (∀ p ∈ (publishSurvey s).attrs, ∀ q ∈ p.2.attrs,
        rtSetattr q.2 k vC = .error (.frozenInstanceError k) ∧
        rtDelattr q.2 k = .error (.frozenInstanceError k)) ∧
      surveyReadResource (publishSurvey s) svc rt res = surveyReadResource s svc rt res := by
  intro s k res svc rt vS vR vC
  refine ⟨rfl, rfl, ?_, ?_, ?_⟩
  · intro p hp
    obtain ⟨q, _, rfl⟩ := List.mem_map.mp hp
    exact ⟨rfl, rfl⟩
  · intro p hp
    obtain ⟨q, _, rfl⟩ := List.mem_map.mp hp
    intro r hr
    obtain ⟨u, _, rfl⟩ := List.mem_map.mp hr
    exact ⟨rfl, rfl⟩
  · have h1 : (publishSurvey s).attrs.lookup svc = (s.attrs.lookup svc).map svcFreeze :=
      lookup_map_val svcFreeze svc s.attrs
    unfold surveyReadResource surveyGetService
    rw [h1]
    cases hsv : s.attrs.lookup svc with
    | none => rfl
    | some sv =>
      have h2 : (svcFreeze sv).attrs.lookup rt = (sv.attrs.lookup rt).map rtFreeze :=
        lookup_map_val rtFreeze rt sv.attrs
      show (match svcGetResourceType (svcFreeze sv) rt with
        | Except.error e => Except.error e
        | Except.ok bucket => rtGetResource bucket res) =
        (match svcGetResourceType sv rt with
        | Except.error e => Except.error e
        | Except.ok bucket => rtGetResource bucket res)
      unfold svcGetResourceType
      rw [h2]
      cases hrt : sv.attrs.lookup rt with
      | none => rfl
      | some bkt => rfl

/-- C6 witness: the frozen-store behavior at a concrete one-service,
one-resource-type, one-instance survey. -/
theorem c6_witness :
    surveySetattr (publishSurvey ⟨false, ["ec2"],
        [("ec2", ⟨false, "ec2", ["security_group"],
          [("security_group", ⟨false, "security_group", ["sg-1"],
            [("sg_1", ⟨"sg-1", "1", "r1", .pnone⟩)]⟩)]⟩)]⟩)
      "extra" ⟨false, "x", [], []⟩ = .error (.frozenInstanceError "extra") ∧
    surveyReadResource (publishSurvey ⟨false, ["ec2"],
        [("ec2", ⟨false, "ec2", ["security_group"],
          [("security_group", ⟨false, "security_group", ["sg-1"],
            [("sg_1", ⟨"sg-1", "1", "r1", .pnone⟩)]⟩)]⟩)]⟩)
      "ec2" "security_group" "sg-1" =
      surveyReadResource ⟨false, ["ec2"],
        [("ec2", ⟨false, "ec2", ["security_group"],
          [("security_group", ⟨false, "security_group", ["sg-1"],
            [("sg_1", ⟨"sg-1", "1", "r1", .pnone⟩)]⟩)]⟩)]⟩
      "ec2" "security_group" "sg-1" :=
  ⟨(c6_frozen_survey_writes_raise_reads_unchanged _ "extra" "sg-1" "ec2" "security_group"
      ⟨false, "x", [], []⟩ ⟨false, "x", [], []⟩ ⟨"x", "x", "x", .pnone⟩).1,
    (c6_frozen_survey_writes_raise_reads_unchanged _ "extra" "sg-1" "ec2" "security_group"
      ⟨false, "x", [], []⟩ ⟨false, "x", [], []⟩ ⟨"x", "x", "x", .pnone⟩).2.2.2.2⟩

/-- C7.  Chaining `where(path, 'eq', [v])` with `where_not(path, 'eq',
[v])` over the same starting cursor yields an empty result whenever the
path resolves on every instance of the cursor — including instances whose
path resolves to several values, some equal to `v` and some not: `where`
keeps an instance when at least one resolved value equals `v`, and
`where_not` then drops exactly those instances. -/
theorem c7_where_whereNot_empty :
    ∀ (insts : List PyVal) (path : List String) (v : PyVal),
      (∀ i ∈ insts, ∃ vals, getObjAttr i path = .ok vals) →
      (whereSearch insts path "eq" [v]).bind
        (fun kept => whereNotSearch kept path "eq" [v]) = .ok [] := by
  intro insts path v hres
  have hcond : conditionNames.contains "eq" = true := rfl
  have hpred : ∀ (i : PyVal) (vals : List PyVal), getObjAttr i path = .ok vals →
      wherePred path "eq" [v] i = .ok (vals.any fun o => [v].any fun m => pyEq o m) := by
    intro i vals hv
    unfold wherePred
    rw [hv]
    show pyAny (fun o => applyCheck "eq" o [v]) vals = _
    have heq : (fun o => applyCheck "eq" o [v]) =
        (fun o => (.ok ([v].any fun m => pyEq o m) : Except Err Bool)) := by
      funext o
      rfl
    rw [heq, pyAny_ok_of_fun]
  have hq : ∀ i ∈ insts, wherePred path "eq" [v] i =
      .ok ((fun j => match getObjAttr j path with
        | .ok vals => vals.any fun o => [v].any fun m => pyEq o m
        | .error _ => false) i) := by
    intro i hi
    obtain ⟨vals, hv⟩ := hres i hi
    rw [hpred i vals hv]
    simp only [hv]
  have hwhere : whereSearch insts path "eq" [v] =
      .ok (insts.filter fun j => match getObjAttr j path with
        | .ok vals => vals.any fun o => [v].any fun m => pyEq o m
        | .error _ => false) := by
    unfold whereSearch
    rw [if_pos hcond]
    exact filterE_congr hq
  rw [hwhere]
  show whereNotSearch _ path "eq" [v] = .ok []
  unfold whereNotSearch
  rw [if_pos hcond]
  apply filterE_all_false
  intro x hx
  have hmem := List.mem_filter.mp hx
  rw [hq x hmem.1]
  simp only [hmem.2, Except.map, Bool.not_true]

/-- C7 witness: a one-instance cursor whose path `x.*` resolves to the two
values `"a"` and `"b"`; with `v = "a"` one resolved value equals `v` and
one does not, and the chained filters return the empty cursor. -/
theorem c7_witness :
    (whereSearch [.pobj [("x", .plist [.pstr "a", .pstr "b"])]] ["x", "*"] "eq"
        [.pstr "a"]).bind
      (fun kept => whereNotSearch kept ["x", "*"] "eq" [.pstr "a"]) = .ok [] := by
  apply c7_where_whereNot_empty
  intro i hi
  rw [List.mem_singleton.mp hi]
  have hstar : isDigitStr "*" = false := by decide
  exact ⟨[.pstr "a", .pstr "b"], by simp [getObjAttr, getObjAttrRaw, pyGetattr, hstar]⟩

/-- C8 counterexample.  The claim predicts that a global unit is scanned
against exactly one context per account.  The code takes
`tuple([scan.CONTEXTS[0]])` — one single context for the whole run, not
one per account: with two accounts `"1"` and `"2"`, each having a
matching-service context, the scanned list is just the very first
context, and account `"2"` gets zero contexts instead of one. -/
theorem c8_global_counterexample :
    scanContextsFor true "s"
        [⟨"1:r1:s", "1", "r1", "s"⟩, ⟨"2:r1:s", "2", "r1", "s"⟩] =
      [⟨"1:r1:s", "1", "r1", "s"⟩] ∧
    (scanContextsFor true "s"
        [⟨"1:r1:s", "1", "r1", "s"⟩, ⟨"2:r1:s", "2", "r1", "s"⟩]).countP
      (fun c => c.accountId == "2") = 0 ∧
    ¬((scanContextsFor true "s"
        [⟨"1:r1:s", "1", "r1", "s"⟩, ⟨"2:r1:s", "2", "r1", "s"⟩]).countP
      (fun c => c.accountId == "2") = 1) := by
  refine ⟨rfl, rfl, ?_⟩
  decide

/-- C8 (amended).  A unit with `isGlobal = true` is scanned against at
most one context: the first entry of the whole context list, and only
when that entry's service matches the unit's `serviceType` (with several
accounts, the other accounts' contexts are never scanned).  A unit with
`isGlobal = false` is scanned exactly once against every context whose
service matches its `serviceType`. -/
theorem c8_context_applicability :
    ∀ (g : Bool) (st : String) (ctxs : List ScanCtx) (c : ScanCtx),
      (g = true → scanContextsFor g st ctxs =
        (match ctxs.head? with
          | some c₀ => if c₀.service == st then [c₀] else []
          | none => [])) ∧
      (g = false → (scanContextsFor g st ctxs).count c =
        (if c.service == st then ctxs.count c else 0)) := by
  intro g st ctxs c
  constructor
  · rintro rfl
    cases ctxs with
    | nil => rfl
    | cons c₀ tl =>
      by_cases hc : (c₀.service == st) = true <;>
        simp [scanContextsFor, List.filter, hc]
  · rintro rfl
    show ((ctxs.filter fun x => x.service == st).count c) = _
    by_cases hc : (c.service == st) = true
    · rw [if_pos hc]
      exact List.count_filter hc
    · rw [if_neg hc]
      refine List.count_eq_zero.mpr fun hmem => ?_
      exact hc (List.mem_filter.mp hmem).2

/-- C8 witness: the amended applicability rule at a one-context list, for
both the global and the non-global case. -/
theorem c8_witness :
    scanContextsFor true "s" [⟨"1:r1:s", "1", "r1", "s"⟩] =
      (match [(⟨"1:r1:s", "1", "r1", "s"⟩ : ScanCtx)].head? with
        | some c₀ => if c₀.service == "s" then [c₀] else []
        | none => []) ∧
    (scanContextsFor false "s" [⟨"1:r1:s", "1", "r1", "s"⟩]).count
        ⟨"1:r1:s", "1", "r1", "s"⟩ =
      (if (⟨"1:r1:s", "1", "r1", "s"⟩ : ScanCtx).service == "s" then
        [(⟨"1:r1:s", "1", "r1", "s"⟩ : ScanCtx)].count ⟨"1:r1:s", "1", "r1", "s"⟩
      else 0) :=
  ⟨(c8_context_applicability true "s" [⟨"1:r1:s", "1", "r1", "s"⟩]
      ⟨"1:r1:s", "1", "r1", "s"⟩).1 rfl,
    (c8_context_applicability false "s" [⟨"1:r1:s", "1", "r1", "s"⟩]
      ⟨"1:r1:s", "1", "r1", "s"⟩).2 rfl⟩

/-- C9.  `GenericCrawler.evaluate` memoizes per `(instance, check name)`:
whenever a call returns `(inst', s, c)`, invoking the same name on the
result executes the underlying function zero times, returns the identical
recorded status, and leaves the instance unchanged; and if the name was
not yet recorded, the first call executed the function exactly once — so
two successive invocations on a fresh instance execute it exactly
once. -/
theorem c9_evaluation_memoized :
    ∀ (inst : CrawlerEvalState) (name : String) (inst' : CrawlerEvalState)
      (s : Bool) (c : Nat),
      evaluate inst name = .ok (inst', s, c) →
      evaluate inst' name = .ok (inst', s, 0) ∧
      (inst.results.find? (fun r => r.1 == name) = none → c = 1) := by
  intro inst name inst' s c h
  cases hfind : inst.results.find? (fun r => r.1 == name) with
  | some r =>
    have hval : evaluate inst name = .ok (inst, r.2.status, 0) := by
      unfold evaluate
      rw [hfind]
    rw [hval] at h
    simp only [Except.ok.injEq, Prod.mk.injEq] at h
    obtain ⟨h1, h2, h3⟩ := h
    subst h1
    subst h2
    subst h3
    refine ⟨hval, fun hnone => ?_⟩
    simp [hfind] at hnone
  | none =>
    cases hlook : inst.evalFuncs.lookup name with
    | none =>
      have hval : evaluate inst name = .error .evaluationMethodNotFoundError := by
        unfold evaluate
        rw [hfind, hlook]
      rw [hval] at h
      cases h
    | some f =>
      cases hf : f () with
      | wrongShape =>
        have hval : evaluate inst name = .error .evaluationMethodResultOutputError := by
          unfold evaluate
          rw [hfind, hlook]
          simp [hf]
        rw [hval] at h
        cases h
      | result res =>
        have hval : evaluate inst name =
            .ok ({ inst with results := inst.results ++ [(name, res)] }, res.status, 1) := by
          unfold evaluate
          rw [hfind, hlook]
          simp [hf]
        rw [hval] at h
        simp only [Except.ok.injEq, Prod.mk.injEq] at h
        obtain ⟨h1, h2, h3⟩ := h
        subst h1
        subst h2
        subst h3
        refine ⟨?_, fun _ => rfl⟩
        have hfind2 : (inst.results ++ [(name, res)]).find? (fun r => r.1 == name) =
            some (name, res) := by
          rw [List.find?_append, hfind]
          simp [List.find?]
        unfold evaluate
        rw [show ({ inst with results := inst.results ++ [(name, res)] } :
          CrawlerEvalState).results = inst.results ++ [(name, res)] from rfl]
        rw [hfind2]

/-- C9 witness: a fresh instance with one attached check; the first call
executes it once, the second call returns the recorded result without
re-execution and leaves the results unchanged. -/
theorem c9_witness :
    evaluate ⟨[("chk", ⟨"ok", true⟩)], [("chk", fun _ => .result ⟨"ok", true⟩)]⟩ "chk" =
      .ok (⟨[("chk", ⟨"ok", true⟩)], [("chk", fun _ => .result ⟨"ok", true⟩)]⟩, true, 0) ∧
    ((⟨[], [("chk", fun _ => .result ⟨"ok", true⟩)]⟩ : CrawlerEvalState).results.find?
        (fun r => r.1 == "chk") = none → 1 = 1) :=
  c9_evaluation_memoized ⟨[], [("chk", fun _ => .result ⟨"ok", true⟩)]⟩ "chk"
    ⟨[("chk", ⟨"ok", true⟩)], [("chk", fun _ => .result ⟨"ok", true⟩)]⟩ true 1 rfl

/-- C10.  `GenericCrawler.__eq__` decides equality by the id string alone:
two crawler instances with the same id compare equal even under different
contexts (account, region) and different data; and the survey
resource-type membership test (`SurveyResourceType.__contains__`) answers
true exactly for the objects whose string form equals some stored
instance's id. -/
theorem c10_equality_by_id :
    (∀ (idv a₁ r₁ : String) (d₁ : PyVal) (a₂ r₂ : String) (d₂ : PyVal),
      crawlerEq ⟨idv, a₁, r₁, d₁⟩ (.crawler ⟨idv, a₂, r₂, d₂⟩) = true) ∧
    (∀ (resources : List CrawlerObj) (o : AnyObj),
      rtContains resources o = true ↔ ∃ r ∈ resources, strOf o = r.id) := by
  constructor
  · intro idv a₁ r₁ d₁ a₂ r₂ d₂
    simp [crawlerEq]
  · intro resources o
    unfold rtContains
    rw [List.any_eq_true]
    cases o with
    | crawler c =>
      simp only [pyEqObj, crawlerEq, strOf, beq_iff_eq]
      exact ⟨fun ⟨r, hr, he⟩ => ⟨r, hr, he.symm⟩, fun ⟨r, hr, he⟩ => ⟨r, hr, he.symm⟩⟩
    | plain s₀ =>
      simp only [pyEqObj, crawlerEq, strOf, beq_iff_eq]

end Aerographer
